import Mathlib

/-!
Verification of the MVG API client (`src/mvg/mvgapi.py`) against its
specification.  The Python module is shallowly embedded: JSON payloads become
the inductive type `Json`, the HTTP layer becomes an oracle `Net` mapping a
`Request` to either a parsed JSON body or a transport-level error message
(the executor collapses non-200 status, wrong content type and transport
failures into one `MvgApiError` whose message is all the claims care about),
and every operation returns its Python result together with the list of
requests it issued, so "no network call is made" is the statement that the
trace is empty.  Python exceptions are modelled by `Exc`: the two documented
error kinds (`ValueError`, `MvgApiError`) plus `other` for exceptions the
module neither raises deliberately nor catches (`AttributeError`,
`TypeError`).
-/

/-- A parsed JSON value.  Python scalars that can appear in payloads are kept
apart (`int`, `float`, `bool`), mirroring Python's runtime types; `float`
carries an exact rational since the module performs no float arithmetic
beyond a division by 1000 that is exact on the epoch values in scope. -/
inductive Json where
  | null
  | bool (b : Bool)
  | int (n : Int)
  | float (q : Rat)
  | str (s : String)
  | arr (xs : List Json)
  | obj (kvs : List (String × Json))

mutual

def Json.decEq : (a b : Json) → Decidable (a = b)
  | .null, .null => isTrue rfl
  | .bool a, .bool b =>
    match (inferInstance : Decidable (a = b)) with
    | isTrue h => isTrue (h ▸ rfl)
    | isFalse h => isFalse (fun he => h (Json.bool.inj he))
  | .int a, .int b =>
    match (inferInstance : Decidable (a = b)) with
    | isTrue h => isTrue (h ▸ rfl)
    | isFalse h => isFalse (fun he => h (Json.int.inj he))
  | .float a, .float b =>
    match (inferInstance : Decidable (a = b)) with
    | isTrue h => isTrue (h ▸ rfl)
    | isFalse h => isFalse (fun he => h (Json.float.inj he))
  | .str a, .str b =>
    match (inferInstance : Decidable (a = b)) with
    | isTrue h => isTrue (h ▸ rfl)
    | isFalse h => isFalse (fun he => h (Json.str.inj he))
  | .arr xs, .arr ys =>
    match Json.decEqList xs ys with
    | isTrue h => isTrue (h ▸ rfl)
    | isFalse h => isFalse (fun he => h (Json.arr.inj he))
  | .obj xs, .obj ys =>
    match Json.decEqObj xs ys with
    | isTrue h => isTrue (h ▸ rfl)
    | isFalse h => isFalse (fun he => h (Json.obj.inj he))
  | .null, .bool _ | .null, .int _ | .null, .float _ | .null, .str _ | .null, .arr _ | .null, .obj _ => isFalse nofun
  | .bool _, .null | .bool _, .int _ | .bool _, .float _ | .bool _, .str _ | .bool _, .arr _ | .bool _, .obj _ => isFalse nofun
  | .int _, .null | .int _, .bool _ | .int _, .float _ | .int _, .str _ | .int _, .arr _ | .int _, .obj _ => isFalse nofun
  | .float _, .null | .float _, .bool _ | .float _, .int _ | .float _, .str _ | .float _, .arr _ | .float _, .obj _ => isFalse nofun
  | .str _, .null | .str _, .bool _ | .str _, .int _ | .str _, .float _ | .str _, .arr _ | .str _, .obj _ => isFalse nofun
  | .arr _, .null | .arr _, .bool _ | .arr _, .int _ | .arr _, .float _ | .arr _, .str _ | .arr _, .obj _ => isFalse nofun
  | .obj _, .null | .obj _, .bool _ | .obj _, .int _ | .obj _, .float _ | .obj _, .str _ | .obj _, .arr _ => isFalse nofun

def Json.decEqList : (a b : List Json) → Decidable (a = b)
  | [], [] => isTrue rfl
  | [], _ :: _ => isFalse nofun
  | _ :: _, [] => isFalse nofun
  | x :: xs, y :: ys =>
    match Json.decEq x y, Json.decEqList xs ys with
    | isTrue h1, isTrue h2 => isTrue (h1 ▸ h2 ▸ rfl)
    | isFalse h1, _ => isFalse (fun he => h1 (List.cons.inj he).1)
    | _, isFalse h2 => isFalse (fun he => h2 (List.cons.inj he).2)

def Json.decEqObj : (a b : List (String × Json)) → Decidable (a = b)
  | [], [] => isTrue rfl
  | [], _ :: _ => isFalse nofun
  | _ :: _, [] => isFalse nofun
  | (k1, v1) :: xs, (k2, v2) :: ys =>
    match (inferInstance : Decidable (k1 = k2)), Json.decEq v1 v2, Json.decEqObj xs ys with
    | isTrue h1, isTrue h2, isTrue h3 => isTrue (h1 ▸ h2 ▸ h3 ▸ rfl)
    | isFalse h1, _, _ =>
      isFalse (fun he => h1 (congrArg Prod.fst (List.cons.inj he).1))
    | _, isFalse h2, _ =>
      isFalse (fun he => h2 (congrArg Prod.snd (List.cons.inj he).1))
    | _, _, isFalse h3 => isFalse (fun he => h3 (List.cons.inj he).2)

end

instance : DecidableEq Json := Json.decEq

/-- Python exceptions relevant to the module: the two documented error kinds
and a catch-all for exceptions the code neither raises nor handles. -/
inductive Exc where
  | valueError (msg : String)
  | mvgApiError (msg : String)
  | other (name : String)
deriving DecidableEq

/-- Dictionary lookup, Python `d.get(k)`: the value stored under the first
matching key, or `none`.  Parsed JSON objects have unique keys, so
first-match equals Python's dict lookup. -/
def pyGet (kvs : List (String × Json)) (k : String) : Option Json :=
  match kvs.find? (fun kv => kv.1 == k) with
  | some kv => some kv.2
  | none => none

/-- Python `d.get(k, default)`. -/
def pyGetD (kvs : List (String × Json)) (k : String) (d : Json) : Json :=
  match pyGet kvs k with
  | some v => v
  | none => d

/-- Python `str.strip()` whitespace test, restricted to the ASCII whitespace
characters (the station strings in scope contain no exotic Unicode spaces). -/
def isWs (c : Char) : Bool :=
  c == ' ' || c == '\t' || c == '\n' || c == '\r' || c == '\x0b' || c == '\x0c'

/-- Python `str.strip()` on the character list: drop whitespace from both
ends. -/
def stripChars (s : List Char) : List Char :=
  ((s.dropWhile isWs).reverse.dropWhile isWs).reverse

/-- Python `str.strip()`. -/
def pyStrip (s : String) : String := String.mk (stripChars s.data)

/-- The format grammar of `re.fullmatch(r"de:\d{2,5}:\d+", station_id)`
(line 90): literal `de:`, then two to five digits, `:`, then at least one
digit.  The regex engine's greedy `\d{2,5}` followed by the non-digit `:`
matches exactly the maximal digit run, which `List.span` computes.  Python's
`\d` also accepts non-ASCII Unicode digits; the grammar here is the
documented ASCII one. -/
def validFormatChars (s : List Char) : Bool :=
  match s with
  | c1 :: c2 :: c3 :: rest =>
    c1 == 'd' && c2 == 'e' && c3 == ':' &&
    (match rest.span Char.isDigit with
     | (d1, r) =>
       match r with
       | c4 :: d2 =>
         c4 == ':' && decide (2 ≤ d1.length) && decide (d1.length ≤ 5) &&
         !d2.isEmpty && d2.all Char.isDigit
       | [] => false)
  | _ => false

/-- Format-only station id check (`valid_station_id` lines 90-92). -/
def valid_format (station_id : String) : Bool :=
  validFormatChars station_id.data

/-- Lexicographic code-point comparison of strings, the order Python's
`sorted` uses on `str` (line 207). -/
def lexLe : List Char → List Char → Bool
  | [], _ => true
  | _ :: _, [] => false
  | a :: as, b :: bs =>
    if a.toNat < b.toNat then true
    else if b.toNat < a.toNat then false
    else lexLe as bs

def strLe (a b : String) : Bool := lexLe a.data b.data

def insertStr (x : String) : List String → List String
  | [] => [x]
  | y :: ys => if strLe x y then x :: y :: ys else y :: insertStr x ys

/-- Python `sorted` on a list of strings (insertion sort; duplicates are
kept, matching `sorted`). -/
def sortIds : List String → List String
  | [] => []
  | x :: xs => insertStr x (sortIds xs)

/-- The two API base URLs (`Base` enum). -/
inductive Base where
  | FIB
  | ZDM
deriving DecidableEq

def Base.value : Base → String
  | .FIB => "https://www.mvg.de/api/fib/v3"
  | .ZDM => "https://www.mvg.de/.rest/zdm"

/-- The endpoint registry (`Endpoint` enum). -/
inductive Endpoint where
  | FIB_LOCATION
  | FIB_NEARBY
  | FIB_DEPARTURE
  | FIB_LINE_STATION
  | ZDM_STATION_IDS
  | ZDM_STATIONS
  | ZDM_LINES
  | MESSAGE
deriving DecidableEq

/-- Path and accepted query-argument names of each endpoint. -/
def Endpoint.value : Endpoint → String × List String
  | .FIB_LOCATION => ("/location", ["query"])
  | .FIB_NEARBY => ("/station/nearby", ["latitude", "longitude"])
  | .FIB_DEPARTURE => ("/departure", ["globalId", "limit", "offsetInMinutes", "transportTypes"])
  | .FIB_LINE_STATION => ("/line/station", ["stationId"])
  | .ZDM_STATION_IDS => ("/mvgStationGlobalIds", [])
  | .ZDM_STATIONS => ("/stations", [])
  | .ZDM_LINES => ("/lines", [])
  | .MESSAGE => ("/message", [])

/-- The MVG transport products (`TransportType` enum, in declaration order,
which is the order of `__members__`). -/
inductive TransportType where
  | BAHN
  | SBAHN
  | UBAHN
  | TRAM
  | BUS
  | REGIONAL_BUS
  | SEV
  | SCHIFF
deriving DecidableEq

/-- The member name, as in `TransportType.__members__`. -/
def TransportType.name : TransportType → String
  | .BAHN => "BAHN"
  | .SBAHN => "SBAHN"
  | .UBAHN => "UBAHN"
  | .TRAM => "TRAM"
  | .BUS => "BUS"
  | .REGIONAL_BUS => "REGIONAL_BUS"
  | .SEV => "SEV"
  | .SCHIFF => "SCHIFF"

/-- The `(display name, icon)` payload of each member. -/
def TransportType.value : TransportType → String × String
  | .BAHN => ("Bahn", "mdi:train")
  | .SBAHN => ("S-Bahn", "mdi:subway-variant")
  | .UBAHN => ("U-Bahn", "mdi:subway")
  | .TRAM => ("Tram", "mdi:tram")
  | .BUS => ("Bus", "mdi:bus")
  | .REGIONAL_BUS => ("Regionalbus", "mdi:bus")
  | .SEV => ("SEV", "mdi:taxi")
  | .SCHIFF => ("Schiff", "mdi:ferry")

/-- The members in `__members__` order. -/
def TransportType.memberList : List TransportType :=
  [.BAHN, .SBAHN, .UBAHN, .TRAM, .BUS, .REGIONAL_BUS, .SEV, .SCHIFF]

/-- `TransportType.all()`: every member whose name is not `"SEV"` (lines
48-51). -/
def TransportType.all : List TransportType :=
  TransportType.memberList.filter (fun m => m.name != "SEV")

/-- Lookup in `TransportType.__members__` by name; `none` models a
`KeyError` / failed membership test. -/
def TransportType.fromName (s : String) : Option TransportType :=
  TransportType.memberList.find? (fun m => m.name == s)

/-- An HTTP GET request as the executor `__api` builds it (lines 104-129):
base URL, endpoint path, query args, optional trailing path parameter.  The
URL string itself is a pure function of these fields and is not modelled
further. -/
structure Request where
  base : Base
  endpoint : Endpoint
  args : List (String × Json)
  pathParam : Option String
deriving DecidableEq

/-- The network oracle: what one GET of a given request produces, either the
parsed JSON body or the message of the `MvgApiError` that the executor
raises for transport failures, non-200 status, or non-JSON content type
(lines 131-147 collapse all three into that single error kind). -/
def Net : Type := Request → Except String Json

/-- The executor `__api`: one request, with the oracle's failure surfaced as
`MvgApiError`. -/
def apiCall (net : Net) (req : Request) : Except Exc Json :=
  match net req with
  | .ok j => .ok j
  | .error msg => .error (.mvgApiError msg)

def stationIdsRequest : Request :=
  ⟨.ZDM, .ZDM_STATION_IDS, [], none⟩

def locationRequest (q : String) : Request :=
  ⟨.FIB, .FIB_LOCATION, [("query", .str q)], none⟩

def nearbyRequest (latitude longitude : Rat) : Request :=
  ⟨.FIB, .FIB_NEARBY, [("latitude", .float latitude), ("longitude", .float longitude)], none⟩

def lineStationRequest (station_id : String) : Request :=
  ⟨.FIB, .FIB_LINE_STATION, [], some station_id⟩

def departureRequest (station_id : String) (limit offset : Int)
    (tts : List TransportType) : Request :=
  ⟨.FIB, .FIB_DEPARTURE,
    [("globalId", .str station_id), ("offsetInMinutes", .int offset),
     ("limit", .int limit),
     ("transportTypes", .str (String.intercalate "," (tts.map TransportType.name)))],
    none⟩

/-- `MvgApi.valid_station_id(station_id, validate_existence)` (lines 81-102).
The format check never touches the network; with `validate_existence` the
station-id enumeration is fetched and membership tested, and any failure
(transport `MvgApiError`, or the `AssertionError` of a non-list body) is
caught and re-raised as `MvgApiError("Bad API call: Could not parse station
data")` (lines 94-100).  Returns the Python result paired with the list of
requests issued. -/
def valid_station_id (net : Net) (station_id : String) (validate_existence : Bool) :
    Except Exc Bool × List Request :=
  if !valid_format station_id then (.ok false, [])
  else if validate_existence then
    (match apiCall net stationIdsRequest with
     | .ok (.arr xs) => .ok (decide (Json.str station_id ∈ xs))
     | _ => .error (.mvgApiError "Bad API call: Could not parse station data"),
     [stationIdsRequest])
  else (.ok true, [])

/-- A normalized station record, the dictionary built at lines 171-177 and
334-340: each field is the raw payload value of the corresponding key (the
payload is untyped, so values stay `Json`), defaulted when absent. -/
structure Station where
  id : Json
  name : Json
  place : Json
  latitude : Json
  longitude : Json
deriving DecidableEq

/-- The station dictionary literal (identical at lines 171-177 and 334-340):
string keys default to `""`, the coordinates to the float `0.0`. -/
def normalizeStationObj (kvs : List (String × Json)) : Station :=
  { id := pyGetD kvs "globalId" (.str "")
    name := pyGetD kvs "name" (.str "")
    place := pyGetD kvs "place" (.str "")
    latitude := pyGetD kvs "latitude" (.float 0)
    longitude := pyGetD kvs "longitude" (.float 0) }

/-- The guard `location.get("type") == "STATION"` of the scan loops (lines
170 and 333); on a non-dict entry the loop would instead raise, which
`firstStation` models separately. -/
def typeIsStation (j : Json) : Bool :=
  match j with
  | .obj kvs => decide (pyGet kvs "type" = some (.str "STATION"))
  | _ => false

/-- The scan loop shared by `station_query` (lines 169-181) and
`nearby_async` (lines 332-344): walk the result list in order, return the
normalized record of the first entry whose `type` is `"STATION"`, else
`none`; a non-dict entry makes `location.get` raise `AttributeError`, which
no `except` clause catches. -/
def firstStation : List Json → Except Exc (Option Station)
  | [] => .ok none
  | l :: rest =>
    match l with
    | .obj kvs =>
      if pyGet kvs "type" = some (.str "STATION") then .ok (some (normalizeStationObj kvs))
      else firstStation rest
    | _ => .error (.other "AttributeError")

/-- `MvgApi.station_query(query)` (lines 149-184): strip the query, call the
location endpoint, assert a list body (failure of the assertion is caught
and re-raised as the parse `MvgApiError`; the executor's own `MvgApiError`
propagates unchanged), return `None` on an empty list, otherwise scan for
the first station entry. -/
def station_query (net : Net) (query : String) :
    Except Exc (Option Station) × List Request :=
  let q := pyStrip query
  let req := locationRequest q
  (match apiCall net req with
   | .error e => .error e
   | .ok (.arr xs) => if xs.isEmpty then .ok none else firstStation xs
   | .ok _ => .error (.mvgApiError "Bad API call: Could not parse station data"),
   [req])

/-- `MvgApi.nearby_async(latitude, longitude)` (lines 303-347): same scan as
`station_query`, against the nearby endpoint, without the empty-list
shortcut and with its own parse message. -/
def nearby_async (net : Net) (latitude longitude : Rat) :
    Except Exc (Option Station) × List Request :=
  let req := nearbyRequest latitude longitude
  (match apiCall net req with
   | .error e => .error e
   | .ok (.arr xs) => firstStation xs
   | .ok _ => .error (.mvgApiError "Bad API call: Could not parse nearby station data"),
   [req])

/-- Entries of the station-id enumeration, which is a list of strings; a
non-string entry would make Python's `sorted` comparisons fail, modelled as
a `TypeError`. -/
def allStrings : List Json → Option (List String)
  | [] => some []
  | .str s :: rest => (allStrings rest).map (fun ss => s :: ss)
  | _ => none

/-- `MvgApi.station_ids_async()` (lines 196-209): fetch the enumeration,
assert a list (a failed assertion is re-raised as the parse `MvgApiError`,
the executor's `MvgApiError` propagates unchanged), return it sorted
ascending. -/
def station_ids_async (net : Net) : Except Exc (List String) × List Request :=
  (match apiCall net stationIdsRequest with
   | .error e => .error e
   | .ok (.arr xs) =>
     match allStrings xs with
     | some ss => .ok (sortIds ss)
     | none => .error (.other "TypeError")
   | .ok _ => .error (.mvgApiError "Bad API call: Could not parse station data"),
   [stationIdsRequest])

/-- The dedup key `(line.get("label"), line.get("transportType"))` of line
283; `none` when the entry is not a dict, in which case `.get` raises. -/
def lineKey (l : Json) : Option (Option Json × Option Json) :=
  match l with
  | .obj kvs => some (pyGet kvs "label", pyGet kvs "transportType")
  | _ => none

/-- Python hashability of a JSON value used inside a dict key: lists and
dicts are unhashable. -/
def hashableJson : Json → Bool
  | .arr _ => false
  | .obj _ => false
  | _ => true

def hashableKey (k : Option Json × Option Json) : Bool :=
  (match k.1 with
   | some v => hashableJson v
   | none => true) &&
  (match k.2 with
   | some v => hashableJson v
   | none => true)

/-- The `unique_lines` loop of lines 280-285: keep the first entry seen for
each `(label, transportType)` key; `list(unique_lines.values())` returns the
kept entries in insertion order, which is first-occurrence order.  `seen`
accumulates the keys already inserted.  An unhashable key raises
`TypeError`, a non-dict entry raises `AttributeError`; neither is caught. -/
def dedupLines : List Json → List (Option Json × Option Json) → Except Exc (List Json)
  | [], _ => .ok []
  | l :: ls, seen =>
    match lineKey l with
    | none => .error (.other "AttributeError")
    | some k =>
      if !hashableKey k then .error (.other "TypeError")
      else if k ∈ seen then dedupLines ls seen
      else
        match dedupLines ls (k :: seen) with
        | .ok rest => .ok (l :: rest)
        | .error e => .error e

/-- The contribution of one station to `all_lines` (lines 271-278): the body
when the per-station fetch returned a list, nothing when it returned an
exception or any non-list value (the loop skips both). -/
def fetchLines (net : Net) (station_id : String) : List Json :=
  match net (lineStationRequest station_id) with
  | .ok (.arr xs) => xs
  | _ => []

/-- `all_lines` after the result loop: the per-station lists concatenated in
station-id order. -/
def aggLines (net : Net) (ids : List String) : List Json :=
  (ids.map (fetchLines net)).flatten

/-- Python truthiness of the optional `station_id` argument: `None` and the
empty string are falsy (`if station_id:` at line 258). -/
def pyTruthy : Option String → Bool
  | none => false
  | some s => !s.isEmpty

/-- `MvgApi.lines_async(station_id)` (lines 245-288).  With a (truthy)
station id: one fetch, list assertion re-raised as the lines parse error.
Without: fetch the sorted station-id enumeration, fetch each station's lines
(`asyncio.gather` with `return_exceptions=True`, so a failed fetch is
skipped, never aborting the others), concatenate the list results, and
deduplicate by `(label, transportType)` keeping first occurrences. -/
def lines_async (net : Net) (station_id : Option String) :
    Except Exc (List Json) × List Request :=
  if pyTruthy station_id then
    let sid := station_id.getD ""
    let req := lineStationRequest sid
    (match apiCall net req with
     | .error e => .error e
     | .ok (.arr xs) => .ok xs
     | .ok _ => .error (.mvgApiError "Bad API call: Could not parse lines data"),
     [req])
  else
    match station_ids_async net with
    | (.ok ids, tr) =>
      (match dedupLines (aggLines net ids) [] with
       | .ok out => .ok out
       | .error e => .error e,
       tr ++ ids.map lineStationRequest)
    | (.error e, tr) => (.error e, tr)

/-- A normalized departure record (lines 425-436). -/
structure Departure where
  time : Int
  planned : Int
  line : Json
  destination : Json
  type : String
  icon : String
  cancelled : Json
  messages : Json
deriving DecidableEq

/-- Truncation toward zero of a rational, what `int()` does to a float. -/
def ratTrunc (q : Rat) : Int := Int.tdiv q.num q.den

/-- Python `int(v / 1000)` on a payload value: `/` is float true division
and `int()` truncates toward zero; on the integer epoch values in scope the
float result is exact, so the conversion is modelled as exact truncated
division.  Python `bool` is an `int` subtype, so it divides too; any other
type raises `TypeError`. -/
def msToSec : Json → Option Int
  | .int n => some (Int.tdiv n 1000)
  | .float q => some (ratTrunc (q / 1000))
  | .bool b => some (Int.tdiv (if b then 1 else 0) 1000)
  | _ => none

/-- One time field of a departure record:
`int(departure.get(k, 0) / 1000)` (lines 427-428). -/
def pyTimeField (kvs : List (String × Json)) (k : String) : Except Exc Int :=
  match msToSec (pyGetD kvs k (.int 0)) with
  | some n => .ok n
  | none => .error (.other "TypeError")

/-- The transport type member used for `type`/`icon` (lines 420-423 and
431-432): `departure.get("transportType", "BAHN")`, then the membership
test `transport_type not in TransportType.__members__`, which hashes the
value, so an unhashable value (a JSON array or object) raises a `TypeError`
there that nothing catches; a hashable non-member (a string that is no
member name, or any other scalar, which is never a member name) is replaced
by `"BAHN"`; finally the enumeration lookup, which cannot fail after the
guard. -/
def resolveTT (tt0 : Json) : Except Exc TransportType :=
  if !hashableJson tt0 then .error (.other "TypeError")
  else
    match tt0 with
    | .str s =>
      match TransportType.fromName s with
      | some m => .ok m
      | none => .ok TransportType.BAHN
    | _ => .ok TransportType.BAHN

/-- The loop body of lines 419-436 for one raw record.  The transport-type
guard (lines 420-423) runs before the dictionary literal, so its `TypeError`
on an unhashable value comes first; within the literal the two time fields
are computed in order (their `TypeError` on a non-numeric value propagates,
nothing catches it); `label`, `destination`, `cancelled` and `messages`
pass through with defaults; a non-dict record makes `.get` raise
`AttributeError`. -/
def normalizeDeparture (departure : Json) : Except Exc Departure :=
  match departure with
  | .obj kvs =>
    match resolveTT (pyGetD kvs "transportType" (.str "BAHN")) with
    | .error e => .error e
    | .ok tt =>
      match pyTimeField kvs "realtimeDepartureTime", pyTimeField kvs "plannedDepartureTime" with
      | .ok t, .ok p =>
        .ok
          { time := t
            planned := p
            line := pyGetD kvs "label" (.str "")
            destination := pyGetD kvs "destination" (.str "")
            type := tt.value.1
            icon := tt.value.2
            cancelled := pyGetD kvs "cancelled" (.bool false)
            messages := pyGetD kvs "messages" (.arr []) }
      | .error e, _ => .error e
      | _, .error e => .error e
  | _ => .error (.other "AttributeError")

/-- `MvgApi.departures_async(station_id, limit, offset, transport_types)`
(lines 371-440): strip the id, run the format-only validation (line 403
calls `valid_station_id` with its default, so no request is issued), raise
`ValueError` on failure before any network call; otherwise default the
transport types to `TransportType.all()`, issue the one departure request,
assert a list body (assertion failure is re-raised as the departure parse
`MvgApiError`; the executor's `MvgApiError` propagates unchanged) and
normalize each record in order. -/
def departures_async (net : Net) (station_id : String) (limit offset : Int)
    (transport_types : Option (List TransportType)) :
    Except Exc (List Departure) × List Request :=
  let sid := pyStrip station_id
  match (valid_station_id net sid false).1 with
  | .ok true =>
    let tts := match transport_types with
      | none => TransportType.all
      | some ts => ts
    let req := departureRequest sid limit offset tts
    (match apiCall net req with
     | .error e => .error e
     | .ok (.arr result) =>
       (match result.mapM normalizeDeparture with
        | .ok ds => .ok ds
        | .error e => .error e)
     | .ok _ => .error (.mvgApiError "Bad MVG API call: Invalid departure data"),
     [req])
  | _ => (.error (.valueError "Invalid format of global station id."), [])

/-- `MvgApi.__init__(station)` (lines 69-79): strip, bind a valid-format id
verbatim, otherwise resolve by `station_query` and bind the found station's
`id`, or raise `ValueError` when nothing was found.  The bound
`self.station_id` is returned. -/
def mvgapi_init (net : Net) (station : String) : Except Exc Json × List Request :=
  let s := pyStrip station
  match (valid_station_id net s false).1 with
  | .ok true => (.ok (.str s), [])
  | _ =>
    match station_query net s with
    | (.ok (some st), tr) => (.ok st.id, tr)
    | (.ok none, tr) => (.error (.valueError "Invalid station name or ID."), tr)
    | (.error e, tr) => (.error e, tr)

/-- Replace one request's response in an oracle, leaving every other request
unchanged (used to compare a failing per-station fetch with an
empty-success one). -/
def overrideNet (net : Net) (r : Request) (v : Except String Json) : Net :=
  fun q => if q = r then v else net q


/-- Whether a JSON value is an object (a Python dict). -/
def isObj : Json → Bool
  | .obj _ => true
  | _ => false

/-- Whether a departure time field is absent or numeric, i.e. whether
computing it cannot raise `TypeError`. -/
def numericOrAbsent (kvs : List (String × Json)) (k : String) : Bool :=
  (msToSec (pyGetD kvs k (.int 0))).isSome

/-- Whether the `transportType` of a raw departure record is absent, a
string that is not the name of any `TransportType` member, or any other
hashable value (which is never a member name).  Unhashable values (arrays,
objects) are excluded: on those the membership test of line 422 raises an
uncaught `TypeError` instead of falling back. -/
def unknownTT (kvs : List (String × Json)) : Bool :=
  match pyGet kvs "transportType" with
  | none => true
  | some (.str s) => (TransportType.fromName s).isNone
  | some v => hashableJson v

/-- Whether a line entry has the given dedup key. -/
def keyIs (k : Option Json × Option Json) (l : Json) : Bool :=
  decide (lineKey l = some k)

/-- A concrete oracle for the aggregate lines operation: two stations
(enumerated out of order), both reporting a `U3`/`UBAHN` line, the second
also a `19`/`TRAM` line. -/
def linesNetA : Net := fun r =>
  if r = stationIdsRequest then .ok (.arr [.str "de:09:2", .str "de:09:1"])
  else if r = lineStationRequest "de:09:1" then
    .ok (.arr [.obj [("label", .str "U3"), ("transportType", .str "UBAHN"), ("n", .int 1)]])
  else if r = lineStationRequest "de:09:2" then
    .ok (.arr [.obj [("label", .str "U3"), ("transportType", .str "UBAHN"), ("n", .int 2)],
               .obj [("label", .str "19"), ("transportType", .str "TRAM")]])
  else .error "unreachable"

/-- A concrete oracle where the second station's per-line fetch fails. -/
def linesNetB : Net := fun r =>
  if r = stationIdsRequest then .ok (.arr [.str "de:09:1", .str "de:09:2"])
  else if r = lineStationRequest "de:09:1" then
    .ok (.arr [.obj [("label", .str "U3"), ("transportType", .str "UBAHN")]])
  else .error "boom"

theorem isWs_eq_false_of_isDigit (c : Char) (h : c.isDigit = true) : isWs c = false := by
  cases hw : isWs c with
  | false => rfl
  | true =>
    exfalso
    simp only [isWs, Bool.or_eq_true, beq_iff_eq] at hw
    rcases hw with (((((hc | hc) | hc) | hc) | hc) | hc) <;> subst hc <;> exact absurd h (by decide)

theorem validFormat_shape (s : List Char) (h : validFormatChars s = true) :
    ∃ d1 d2, s = 'd' :: 'e' :: ':' :: (d1 ++ ':' :: d2) ∧
      d1.all Char.isDigit = true ∧ 2 ≤ d1.length ∧ d1.length ≤ 5 ∧
      d2 ≠ [] ∧ d2.all Char.isDigit = true := by
  match s with
  | [] => simp [validFormatChars] at h
  | [c1] => simp [validFormatChars] at h
  | [c1, c2] => simp [validFormatChars] at h
  | c1 :: c2 :: c3 :: rest =>
    simp only [validFormatChars, Bool.and_eq_true, beq_iff_eq] at h
    obtain ⟨⟨⟨h1, h2⟩, h3⟩, hm⟩ := h
    subst h1; subst h2; subst h3
    rw [List.span_eq_take_drop] at hm
    cases hr : rest.dropWhile Char.isDigit with
    | nil => rw [hr] at hm; simp at hm
    | cons c4 d2 =>
      rw [hr] at hm
      simp only [Bool.and_eq_true, beq_iff_eq, decide_eq_true_eq, Bool.not_eq_true'] at hm
      obtain ⟨⟨⟨⟨h4, h5⟩, h6⟩, h7⟩, h8⟩ := hm
      subst h4
      refine ⟨rest.takeWhile Char.isDigit, d2, ?_, List.all_takeWhile, h5, h6,
        fun he => by simp [he] at h7, h8⟩
      have := List.takeWhile_append_dropWhile (p := Char.isDigit) (l := rest)
      rw [hr] at this
      rw [this]

theorem dropWhile_all_append (w t : List Char) (hw : w.all isWs = true) :
    (w ++ t).dropWhile isWs = t.dropWhile isWs := by
  induction w with
  | nil => rfl
  | cons c cs ih =>
    simp only [List.all_cons, Bool.and_eq_true] at hw
    simp [List.cons_append, List.dropWhile_cons, hw.1, ih hw.2]

theorem dropWhile_cons_of_neg (c : Char) (t : List Char) (h : isWs c = false) :
    (c :: t).dropWhile isWs = c :: t := by
  simp [List.dropWhile_cons, h]

theorem valid_dropWhile_left (s w : List Char) (hv : validFormatChars s = true) :
    (s ++ w).dropWhile isWs = s ++ w := by
  obtain ⟨d1, d2, hs, -, -, -, -, -⟩ := validFormat_shape s hv
  subst hs
  exact dropWhile_cons_of_neg 'd' _ (by decide)

theorem valid_dropWhile_right (s w : List Char) (hw : w.all isWs = true)
    (hv : validFormatChars s = true) :
    ((s ++ w).reverse).dropWhile isWs = s.reverse := by
  obtain ⟨d1, d2, hs, -, -, -, hne, hall⟩ := validFormat_shape s hv
  obtain ⟨a, t2, hrev⟩ : ∃ a t2, d2.reverse = a :: t2 := by
    cases hd : d2.reverse with
    | nil => exact absurd (List.reverse_eq_nil_iff.mp hd) hne
    | cons a t2 => exact ⟨a, t2, rfl⟩
  have haDigit : a.isDigit = true := by
    have ham : a ∈ d2 := List.mem_reverse.mp (hrev ▸ List.mem_cons_self a t2)
    exact List.all_eq_true.mp hall a ham
  have haWs : isWs a = false := isWs_eq_false_of_isDigit a haDigit
  have hsrev : s.reverse = a :: (t2 ++ [':'] ++ d1.reverse ++ [':', 'e', 'd']) := by
    subst hs
    simp [List.reverse_append, hrev]
  rw [List.reverse_append, dropWhile_all_append w.reverse s.reverse (by simpa using hw)]
  rw [hsrev]
  exact dropWhile_cons_of_neg a _ haWs

theorem stripChars_pad (w1 w2 s : List Char) (h1 : w1.all isWs = true)
    (h2 : w2.all isWs = true) (hv : validFormatChars s = true) :
    stripChars (w1 ++ (s ++ w2)) = s := by
  unfold stripChars
  rw [dropWhile_all_append w1 (s ++ w2) h1]
  rw [valid_dropWhile_left s w2 hv]
  rw [valid_dropWhile_right s w2 h2 hv]
  exact List.reverse_reverse s

theorem stripChars_eq_of_valid (s : List Char) (hv : validFormatChars s = true) :
    stripChars s = s := by
  have h := stripChars_pad [] [] s rfl rfl hv
  simpa using h

theorem pyStrip_eq_of_valid (s : String) (hv : valid_format s = true) : pyStrip s = s := by
  unfold pyStrip
  rw [stripChars_eq_of_valid s.data hv]

theorem pyStrip_pad (w1 w2 s : String) (h1 : w1.data.all isWs = true)
    (h2 : w2.data.all isWs = true) (hv : valid_format s = true) :
    pyStrip (w1 ++ s ++ w2) = s := by
  unfold pyStrip
  have hd : (w1 ++ s ++ w2).data = w1.data ++ (s.data ++ w2.data) := by
    simp [String.data_append]
  rw [hd, stripChars_pad _ _ _ h1 h2 hv]

/-- C1: for every station id string that fails the documented format check
of `departures_async` (line 402 strips, lines 403-404 test the grammar
`de:<2-5 digits>:<digits>`), the call returns the invalid-input `ValueError`
for every network oracle, and its request trace is empty: no API call is
issued, so no API-call error can arise from such an input. -/
theorem mvg_c1 (net : Net) (station_id : String) (limit offset : Int)
    (tts : Option (List TransportType))
    (h : valid_format (pyStrip station_id) = false) :
    departures_async net station_id limit offset tts =
      (.error (.valueError "Invalid format of global station id."), []) := by
  simp [departures_async, valid_station_id, h]

theorem mvg_c1_witness :
    departures_async (fun _ => Except.error "unreachable") "x" 10 0 none =
      (.error (.valueError "Invalid format of global station id."), []) :=
  mvg_c1 (fun _ => Except.error "unreachable") "x" 10 0 none (by decide)

/-- C2: for a well-formed station id, existence validation either returns
`false` when the remote enumeration fetch succeeds, parses as a list and
does not contain the id, or raises the API-call error `MvgApiError` when
the fetch fails or the body is not a list; in particular it never returns
`true` for an id absent from the enumeration. -/
theorem mvg_c2 (net : Net) (sid : String) (hfmt : valid_format sid = true) :
    (∀ xs, net stationIdsRequest = .ok (.arr xs) → Json.str sid ∉ xs →
       valid_station_id net sid true = (.ok false, [stationIdsRequest])) ∧
    (∀ msg, net stationIdsRequest = .error msg →
       valid_station_id net sid true =
         (.error (.mvgApiError "Bad API call: Could not parse station data"),
          [stationIdsRequest])) ∧
    (∀ j, net stationIdsRequest = .ok j → (∀ xs, j ≠ .arr xs) →
       valid_station_id net sid true =
         (.error (.mvgApiError "Bad API call: Could not parse station data"),
          [stationIdsRequest])) ∧
    (∀ xs, net stationIdsRequest = .ok (.arr xs) → Json.str sid ∉ xs →
       (valid_station_id net sid true).1 ≠ .ok true) := by
  refine ⟨?_, ?_, ?_, ?_⟩
  · intro xs hnet hmem
    simp [valid_station_id, hfmt, apiCall, hnet, decide_eq_false hmem]
  · intro msg hnet
    simp [valid_station_id, hfmt, apiCall, hnet]
  · intro j hnet hj
    cases j with
    | arr xs => exact absurd rfl (hj xs)
    | null => simp [valid_station_id, hfmt, apiCall, hnet]
    | bool b => simp [valid_station_id, hfmt, apiCall, hnet]
    | int n => simp [valid_station_id, hfmt, apiCall, hnet]
    | float q => simp [valid_station_id, hfmt, apiCall, hnet]
    | str t => simp [valid_station_id, hfmt, apiCall, hnet]
    | obj kvs => simp [valid_station_id, hfmt, apiCall, hnet]
  · intro xs hnet hmem
    simp [valid_station_id, hfmt, apiCall, hnet, decide_eq_false hmem]

theorem mvg_c2_witness :
    valid_station_id
        (fun r => if r = stationIdsRequest then .ok (.arr [.str "de:09162:70"]) else .error "boom")
        "de:09162:6" true = (.ok false, [stationIdsRequest]) ∧
    valid_station_id (fun _ => .error "down") "de:09162:6" true =
      (.error (.mvgApiError "Bad API call: Could not parse station data"),
       [stationIdsRequest]) := by
  constructor
  · exact (mvg_c2
      (fun r => if r = stationIdsRequest then .ok (.arr [.str "de:09162:70"]) else .error "boom")
      "de:09162:6" (by decide)).1 [.str "de:09162:70"] (by rfl) (by decide)
  · exact (mvg_c2 (fun _ => .error "down") "de:09162:6" (by decide)).2.1 "down" (by rfl)

theorem firstStation_none (xs : List Json) (hobj : ∀ j ∈ xs, isObj j = true)
    (hfind : xs.find? typeIsStation = none) : firstStation xs = .ok none := by
  induction xs with
  | nil => rfl
  | cons j rest ih =>
    have hj := hobj j (List.mem_cons_self j rest)
    cases j with
    | obj kvs =>
      by_cases hc : pyGet kvs "type" = some (Json.str "STATION")
      · rw [List.find?_cons_of_pos _ (by simp [typeIsStation, hc])] at hfind
        simp at hfind
      · rw [List.find?_cons_of_neg _ (by simp [typeIsStation, hc])] at hfind
        simp only [firstStation, if_neg hc]
        exact ih (fun x hx => hobj x (List.mem_cons_of_mem _ hx)) hfind
    | null => simp [isObj] at hj
    | bool b => simp [isObj] at hj
    | int n => simp [isObj] at hj
    | float q => simp [isObj] at hj
    | str t => simp [isObj] at hj
    | arr l => simp [isObj] at hj

theorem firstStation_found (xs : List Json) (hobj : ∀ j ∈ xs, isObj j = true)
    (kvs : List (String × Json)) (hfind : xs.find? typeIsStation = some (.obj kvs)) :
    firstStation xs = .ok (some (normalizeStationObj kvs)) := by
  induction xs with
  | nil => simp at hfind
  | cons j rest ih =>
    have hj := hobj j (List.mem_cons_self j rest)
    cases j with
    | obj kvs0 =>
      by_cases hc : pyGet kvs0 "type" = some (Json.str "STATION")
      · rw [List.find?_cons_of_pos _ (by simp [typeIsStation, hc])] at hfind
        have hk : kvs0 = kvs := Json.obj.inj (Option.some.inj hfind)
        subst hk
        simp [firstStation, hc]
      · rw [List.find?_cons_of_neg _ (by simp [typeIsStation, hc])] at hfind
        simp only [firstStation, if_neg hc]
        exact ih (fun x hx => hobj x (List.mem_cons_of_mem _ hx)) hfind
    | null => simp [isObj] at hj
    | bool b => simp [isObj] at hj
    | int n => simp [isObj] at hj
    | float q => simp [isObj] at hj
    | str t => simp [isObj] at hj
    | arr l => simp [isObj] at hj

/-- C6: both `station_query` and `nearby_async`, given a successful
list-shaped response whose entries are records, return the normalized
record of the first entry whose `type` equals `"STATION"` (skipping every
earlier non-STATION entry, which `List.find?` expresses), and return
`none` without raising when the list is empty or holds no STATION entry. -/
theorem mvg_c6 (net : Net) (query : String) (latitude longitude : Rat) (xs ys : List Json)
    (hq : net (locationRequest (pyStrip query)) = .ok (.arr xs))
    (hx : ∀ j ∈ xs, isObj j = true)
    (hn : net (nearbyRequest latitude longitude) = .ok (.arr ys))
    (hy : ∀ j ∈ ys, isObj j = true) :
    ((xs.find? typeIsStation = none → (station_query net query).1 = .ok none) ∧
     (∀ kvs, xs.find? typeIsStation = some (.obj kvs) →
        (station_query net query).1 = .ok (some (normalizeStationObj kvs)))) ∧
    ((ys.find? typeIsStation = none → (nearby_async net latitude longitude).1 = .ok none) ∧
     (∀ kvs, ys.find? typeIsStation = some (.obj kvs) →
        (nearby_async net latitude longitude).1 = .ok (some (normalizeStationObj kvs)))) := by
  have hsq : (station_query net query).1 = if xs.isEmpty then .ok none else firstStation xs := by
    simp [station_query, apiCall, hq]
  have hnb : (nearby_async net latitude longitude).1 = firstStation ys := by
    simp [nearby_async, apiCall, hn]
  refine ⟨⟨?_, ?_⟩, ?_, ?_⟩
  · intro hfind
    rw [hsq]
    cases xs with
    | nil => rfl
    | cons a l =>
      rw [if_neg (by simp)]
      exact firstStation_none _ hx hfind
  · intro kvs hfind
    rw [hsq]
    cases xs with
    | nil => simp at hfind
    | cons a l =>
      rw [if_neg (by simp)]
      exact firstStation_found _ hx kvs hfind
  · intro hfind
    rw [hnb]
    exact firstStation_none _ hy hfind
  · intro kvs hfind
    rw [hnb]
    exact firstStation_found _ hy kvs hfind

theorem mvg_c6_witness :
    (station_query
        (fun r => if r = locationRequest "Uni" then
            .ok (.arr [Json.obj [("type", .str "POI")],
                       Json.obj [("type", .str "STATION"), ("globalId", .str "de:09162:70"),
                                 ("name", .str "Uni")]])
          else .ok (.arr []))
        "Uni").1 =
      .ok (some (normalizeStationObj
        [("type", .str "STATION"), ("globalId", .str "de:09162:70"), ("name", .str "Uni")])) ∧
    (nearby_async
        (fun r => if r = locationRequest "Uni" then
            .ok (.arr [Json.obj [("type", .str "POI")],
                       Json.obj [("type", .str "STATION"), ("globalId", .str "de:09162:70"),
                                 ("name", .str "Uni")]])
          else .ok (.arr []))
        48 11).1 = .ok none := by
  have h := mvg_c6
    (fun r => if r = locationRequest "Uni" then
        .ok (.arr [Json.obj [("type", .str "POI")],
                   Json.obj [("type", .str "STATION"), ("globalId", .str "de:09162:70"),
                             ("name", .str "Uni")]])
      else .ok (.arr []))
    "Uni" 48 11
    [Json.obj [("type", .str "POI")],
     Json.obj [("type", .str "STATION"), ("globalId", .str "de:09162:70"), ("name", .str "Uni")]]
    [] (by rfl) (by decide) (by rfl) (by decide)
  exact ⟨h.1.2 _ (by rfl), h.2.1 (by rfl)⟩

theorem normalizeDeparture_ok (kvs : List (String × Json)) (tt : TransportType) (t0 p0 : Int)
    (h0 : resolveTT (pyGetD kvs "transportType" (.str "BAHN")) = .ok tt)
    (h1 : pyTimeField kvs "realtimeDepartureTime" = .ok t0)
    (h2 : pyTimeField kvs "plannedDepartureTime" = .ok p0) :
    normalizeDeparture (.obj kvs) = .ok
      { time := t0
        planned := p0
        line := pyGetD kvs "label" (.str "")
        destination := pyGetD kvs "destination" (.str "")
        type := tt.value.1
        icon := tt.value.2
        cancelled := pyGetD kvs "cancelled" (.bool false)
        messages := pyGetD kvs "messages" (.arr []) } := by
  simp [normalizeDeparture, h0, h1, h2]

theorem normalizeDeparture_error_tt (kvs : List (String × Json)) (e : Exc)
    (h0 : resolveTT (pyGetD kvs "transportType" (.str "BAHN")) = .error e) :
    normalizeDeparture (.obj kvs) = .error e := by
  simp [normalizeDeparture, h0]

theorem normalizeDeparture_error_left (kvs : List (String × Json)) (tt : TransportType) (e : Exc)
    (h0 : resolveTT (pyGetD kvs "transportType" (.str "BAHN")) = .ok tt)
    (h1 : pyTimeField kvs "realtimeDepartureTime" = .error e) :
    normalizeDeparture (.obj kvs) = .error e := by
  simp [normalizeDeparture, h0, h1]

theorem normalizeDeparture_error_right (kvs : List (String × Json)) (tt : TransportType)
    (t0 : Int) (e : Exc)
    (h0 : resolveTT (pyGetD kvs "transportType" (.str "BAHN")) = .ok tt)
    (h1 : pyTimeField kvs "realtimeDepartureTime" = .ok t0)
    (h2 : pyTimeField kvs "plannedDepartureTime" = .error e) :
    normalizeDeparture (.obj kvs) = .error e := by
  simp [normalizeDeparture, h0, h1, h2]

/-- An unhashable `transportType` value makes the membership test of line
422 raise an uncaught `TypeError`: the record is not normalized. -/
theorem normalizeDeparture_unhashable_tt :
    normalizeDeparture (.obj [("transportType", .arr [])]) = .error (.other "TypeError") ∧
    normalizeDeparture (.obj [("transportType", .obj [])]) = .error (.other "TypeError") :=
  ⟨rfl, rfl⟩

/-- C5: when the `transportType` of a raw departure record is absent, or is
any hashable value that is not a known member name (an unrecognized string
code, or any non-string scalar), the normalized record's `type` and `icon`
are the rail member `BAHN`'s display name and icon, `("Bahn", "mdi:train")`,
and no error is raised (the time fields being absent-or-numeric rules out
the unrelated `TypeError` they could raise).  An unhashable value (array or
object) is not a code: on it the membership test of line 422 raises an
uncaught `TypeError`, which `resolveTT` models, so it lies outside the
claim's scope. -/
theorem mvg_c5 (kvs : List (String × Json))
    (ht : numericOrAbsent kvs "realtimeDepartureTime" = true)
    (hp : numericOrAbsent kvs "plannedDepartureTime" = true)
    (hu : unknownTT kvs = true) :
    (normalizeDeparture (.obj kvs)).map (fun d => (d.type, d.icon)) =
      .ok (TransportType.value .BAHN) ∧
    TransportType.value .BAHN = ("Bahn", "mdi:train") := by
  obtain ⟨t0, hrt⟩ := Option.isSome_iff_exists.mp ht
  obtain ⟨p0, hpt⟩ := Option.isSome_iff_exists.mp hp
  have h1 : pyTimeField kvs "realtimeDepartureTime" = .ok t0 := by
    simp [pyTimeField, hrt]
  have h2 : pyTimeField kvs "plannedDepartureTime" = .ok p0 := by
    simp [pyTimeField, hpt]
  have h3 : resolveTT (pyGetD kvs "transportType" (.str "BAHN")) = .ok .BAHN := by
    unfold unknownTT at hu
    cases hg : pyGet kvs "transportType" with
    | none =>
      simp only [pyGetD, hg]
      rfl
    | some v =>
      rw [hg] at hu
      cases v with
      | str s =>
        have hf : TransportType.fromName s = none := Option.isNone_iff_eq_none.mp hu
        simp [pyGetD, hg, resolveTT, hashableJson, hf]
      | null => simp [pyGetD, hg, resolveTT, hashableJson]
      | bool b => simp [pyGetD, hg, resolveTT, hashableJson]
      | int n => simp [pyGetD, hg, resolveTT, hashableJson]
      | float q => simp [pyGetD, hg, resolveTT, hashableJson]
      | arr l => simp [hashableJson] at hu
      | obj o => simp [hashableJson] at hu
  constructor
  · rw [normalizeDeparture_ok kvs .BAHN t0 p0 h3 h1 h2]
    rfl
  · rfl

theorem mvg_c5_witness :
    (normalizeDeparture (.obj [("transportType", .str "SPACESHIP"),
        ("realtimeDepartureTime", .int 1668524580000)])).map (fun d => (d.type, d.icon)) =
      .ok (TransportType.value .BAHN) ∧
    (normalizeDeparture (.obj [("label", .str "U3")])).map (fun d => (d.type, d.icon)) =
      .ok (TransportType.value .BAHN) := by
  constructor
  · exact (mvg_c5 [("transportType", .str "SPACESHIP"),
      ("realtimeDepartureTime", .int 1668524580000)] (by decide) (by decide) (by decide)).1
  · exact (mvg_c5 [("label", .str "U3")] (by decide) (by decide) (by decide)).1

/-- C7: the millisecond epoch fields are converted to integer seconds: the
record with `realtimeDepartureTime = 1668524580000` normalizes to
`time = 1668524580` (and a missing `plannedDepartureTime` to `planned = 0`),
symmetrically for `plannedDepartureTime`, and a record missing both fields
normalizes to `time = 0, planned = 0` with no error. -/
theorem mvg_c7 :
    (normalizeDeparture (.obj [("realtimeDepartureTime", .int 1668524580000)])).map
        (fun d => (d.time, d.planned)) = .ok (1668524580, 0) ∧
    (normalizeDeparture (.obj [("plannedDepartureTime", .int 1668524580000)])).map
        (fun d => (d.time, d.planned)) = .ok (0, 1668524580) ∧
    (normalizeDeparture (.obj [])).map (fun d => (d.time, d.planned)) = .ok (0, 0) := by
  refine ⟨rfl, rfl, rfl⟩

/-- C8 as stated is false: the `type` and `icon` string fields of a
normalized departure do not default to the empty string when the payload
omits `transportType`; they default to the rail entry `"Bahn"` /
`"mdi:train"`. -/
theorem mvg_c8_counterexample :
    (normalizeDeparture (.obj [])).map (fun d => d.type) = .ok "Bahn" ∧
    (normalizeDeparture (.obj [])).map (fun d => d.icon) = .ok "mdi:train" ∧
    ("Bahn" : String) ≠ "" ∧ ("mdi:train" : String) ≠ "" := by
  refine ⟨rfl, rfl, by decide, by decide⟩

/-- C8 (amended): every normalizer output record contains all of its
declared fields even when the source payload omits them, with defaults:
string fields default to the empty string except the departure `type` and
`icon`, which default to the rail category's display name `"Bahn"` and icon
`"mdi:train"`; numeric fields default to 0 (the float `0.0` for
coordinates), the `cancelled` boolean to false, and the `messages` list to
the empty list.  (Field presence is structural in the embedding: `Station`
and `Departure` are records.) -/
theorem mvg_c8 (kvs : List (String × Json)) :
    ((pyGet kvs "globalId" = none → (normalizeStationObj kvs).id = .str "") ∧
     (pyGet kvs "name" = none → (normalizeStationObj kvs).name = .str "") ∧
     (pyGet kvs "place" = none → (normalizeStationObj kvs).place = .str "") ∧
     (pyGet kvs "latitude" = none → (normalizeStationObj kvs).latitude = .float 0) ∧
     (pyGet kvs "longitude" = none → (normalizeStationObj kvs).longitude = .float 0)) ∧
    (∀ d, normalizeDeparture (.obj kvs) = .ok d →
      (pyGet kvs "realtimeDepartureTime" = none → d.time = 0) ∧
      (pyGet kvs "plannedDepartureTime" = none → d.planned = 0) ∧
      (pyGet kvs "label" = none → d.line = .str "") ∧
      (pyGet kvs "destination" = none → d.destination = .str "") ∧
      (pyGet kvs "cancelled" = none → d.cancelled = .bool false) ∧
      (pyGet kvs "messages" = none → d.messages = .arr []) ∧
      (pyGet kvs "transportType" = none → d.type = "Bahn" ∧ d.icon = "mdi:train")) := by
  constructor
  · refine ⟨?_, ?_, ?_, ?_, ?_⟩ <;>
      (intro hg; simp [normalizeStationObj, pyGetD, hg])
  · intro d hd
    cases h0 : resolveTT (pyGetD kvs "transportType" (.str "BAHN")) with
    | error e =>
      rw [normalizeDeparture_error_tt kvs e h0] at hd
      exact absurd hd (by simp)
    | ok tt =>
      cases h1 : pyTimeField kvs "realtimeDepartureTime" with
      | error e =>
        rw [normalizeDeparture_error_left kvs tt e h0 h1] at hd
        exact absurd hd (by simp)
      | ok t0 =>
        cases h2 : pyTimeField kvs "plannedDepartureTime" with
        | error e =>
          rw [normalizeDeparture_error_right kvs tt t0 e h0 h1 h2] at hd
          exact absurd hd (by simp)
        | ok p0 =>
          rw [normalizeDeparture_ok kvs tt t0 p0 h0 h1 h2] at hd
          obtain rfl := Except.ok.inj hd
          refine ⟨?_, ?_, ?_, ?_, ?_, ?_, ?_⟩
          · intro hg
            have hz : pyTimeField kvs "realtimeDepartureTime" = .ok 0 := by
              unfold pyTimeField pyGetD
              rw [hg]
              rfl
            exact Except.ok.inj (h1.symm.trans hz)
          · intro hg
            have hz : pyTimeField kvs "plannedDepartureTime" = .ok 0 := by
              unfold pyTimeField pyGetD
              rw [hg]
              rfl
            exact Except.ok.inj (h2.symm.trans hz)
          · intro hg
            simp [pyGetD, hg]
          · intro hg
            simp [pyGetD, hg]
          · intro hg
            simp [pyGetD, hg]
          · intro hg
            simp [pyGetD, hg]
          · intro hg
            unfold pyGetD at h0
            rw [hg] at h0
            have htt : tt = TransportType.BAHN :=
              Except.ok.inj
                (h0.symm.trans (rfl : resolveTT (Json.str "BAHN") = Except.ok TransportType.BAHN))
            subst htt
            exact ⟨rfl, rfl⟩

theorem mvg_c8_witness :
    (normalizeStationObj []).id = .str "" ∧
    (normalizeDeparture (.obj [])).map (fun d => d.planned) = .ok 0 := by
  have h := mvg_c8 []
  have hd : normalizeDeparture (.obj ([] : List (String × Json))) =
      .ok { time := 0, planned := 0, line := .str "", destination := .str "",
            type := "Bahn", icon := "mdi:train", cancelled := .bool false,
            messages := .arr [] } := rfl
  refine ⟨h.1.1 rfl, ?_⟩
  rw [hd]
  exact congrArg Except.ok ((h.2 _ hd).2.1 rfl)

/-- C9: facade construction.  A valid-format global id input is bound
verbatim with an empty request trace (a valid-format string has no
surrounding whitespace, so stripping is the identity on it); an input that
is not a valid-format id (after stripping) and whose station search
resolves to no station raises the invalid-input `ValueError`, not the
API-call error. -/
theorem mvg_c9 (net : Net) (station : String) :
    (valid_format station = true → mvgapi_init net station = (.ok (.str station), [])) ∧
    (valid_format (pyStrip station) = false →
     (station_query net (pyStrip station)).1 = .ok none →
     (mvgapi_init net station).1 = .error (.valueError "Invalid station name or ID.")) := by
  constructor
  · intro hv
    have hs : pyStrip station = station := pyStrip_eq_of_valid station hv
    simp [mvgapi_init, hs, valid_station_id, hv]
  · intro hv hq
    rcases hsq : station_query net (pyStrip station) with ⟨r, tr⟩
    rw [hsq] at hq
    simp only at hq
    subst hq
    simp [mvgapi_init, valid_station_id, hv, hsq]

theorem mvg_c9_witness :
    mvgapi_init (fun _ => .error "down") "de:09162:70" = (.ok (.str "de:09162:70"), []) ∧
    (mvgapi_init (fun _ => .ok (.arr [])) "???").1 =
      .error (.valueError "Invalid station name or ID.") :=
  ⟨(mvg_c9 (fun _ => .error "down") "de:09162:70").1 (by decide),
   (mvg_c9 (fun _ => .ok (.arr [])) "???").2 (by decide) (by rfl)⟩

/-- C10: whitespace padding around a valid-format station id is tolerated
at the public interface: the facade constructor binds the unpadded id with
no network call, and `departures_async` behaves on the padded string
exactly as on the unpadded id (in particular the request carries the
stripped id). -/
theorem mvg_c10 (net : Net) (w1 w2 s : String) (limit offset : Int)
    (tts : Option (List TransportType))
    (h1 : w1.data.all isWs = true) (h2 : w2.data.all isWs = true)
    (hv : valid_format s = true) :
    mvgapi_init net (w1 ++ s ++ w2) = (.ok (.str s), []) ∧
    departures_async net (w1 ++ s ++ w2) limit offset tts =
      departures_async net s limit offset tts := by
  have hp : pyStrip (w1 ++ s ++ w2) = s := pyStrip_pad w1 w2 s h1 h2 hv
  have hs : pyStrip s = s := pyStrip_eq_of_valid s hv
  constructor
  · simp [mvgapi_init, hp, valid_station_id, hv]
  · simp only [departures_async, hp, hs]

theorem mvg_c10_witness :
    mvgapi_init (fun _ => .ok (.arr [])) ("  " ++ "de:09162:70" ++ " ") =
      (.ok (.str "de:09162:70"), []) ∧
    departures_async (fun _ => .ok (.arr [])) ("  " ++ "de:09162:70" ++ " ") 10 0 none =
      departures_async (fun _ => .ok (.arr [])) "de:09162:70" 10 0 none :=
  mvg_c10 (fun _ => .ok (.arr [])) "  " " " "de:09162:70" 10 0 none
    (by decide) (by decide) (by decide)

theorem lexLe_total (a b : List Char) (h : lexLe a b = false) : lexLe b a = true := by
  induction a generalizing b with
  | nil => simp [lexLe] at h
  | cons x xs ih =>
    cases b with
    | nil => rfl
    | cons y ys =>
      unfold lexLe at h ⊢
      by_cases h1 : x.toNat < y.toNat
      · simp [h1] at h
      · by_cases h2 : y.toNat < x.toNat
        · simp [h1, h2] at h ⊢
        · simp [h1, h2] at h ⊢
          exact ih ys h

theorem lexLe_trans (a b c : List Char) (hab : lexLe a b = true) (hbc : lexLe b c = true) :
    lexLe a c = true := by
  induction a generalizing b c with
  | nil => rfl
  | cons x xs ih =>
    cases b with
    | nil => simp [lexLe] at hab
    | cons y ys =>
      cases c with
      | nil => simp [lexLe] at hbc
      | cons z zs =>
        unfold lexLe at hab hbc ⊢
        by_cases hxy : x.toNat < y.toNat
        · by_cases hyz : y.toNat < z.toNat
          · simp [show x.toNat < z.toNat from Nat.lt_trans hxy hyz]
          · by_cases hzy : z.toNat < y.toNat
            · simp [hyz, hzy] at hbc
            · have hxz : x.toNat < z.toNat := by omega
              simp [hxz]
        · by_cases hyx : y.toNat < x.toNat
          · simp [hxy, hyx] at hab
          · simp only [hxy, hyx, if_false] at hab
            by_cases hyz : y.toNat < z.toNat
            · have hxz : x.toNat < z.toNat := by omega
              simp [hxz]
            · by_cases hzy : z.toNat < y.toNat
              · simp [hyz, hzy] at hbc
              · simp only [hyz, hzy, if_false] at hbc
                have hxz1 : ¬ x.toNat < z.toNat := by omega
                have hxz2 : ¬ z.toNat < x.toNat := by omega
                simp only [hxz1, hxz2, if_false]
                exact ih ys zs hab hbc

theorem strLe_trans (a b c : String) (h1 : strLe a b = true) (h2 : strLe b c = true) :
    strLe a c = true :=
  lexLe_trans a.data b.data c.data h1 h2

theorem strLe_total (a b : String) (h : strLe a b = false) : strLe b a = true :=
  lexLe_total a.data b.data h

theorem mem_insertStr (x y : String) (l : List String) :
    y ∈ insertStr x l ↔ y = x ∨ y ∈ l := by
  induction l with
  | nil => simp [insertStr]
  | cons z zs ih =>
    unfold insertStr
    by_cases hc : strLe x z = true
    · simp [hc]
    · simp [hc, ih]
      tauto

theorem pairwise_insertStr (x : String) (l : List String)
    (hl : l.Pairwise (fun a b => strLe a b = true)) :
    (insertStr x l).Pairwise (fun a b => strLe a b = true) := by
  induction l with
  | nil => simp [insertStr]
  | cons z zs ih =>
    rcases List.pairwise_cons.mp hl with ⟨hz, hzs⟩
    unfold insertStr
    by_cases hc : strLe x z = true
    · rw [if_pos hc]
      refine List.pairwise_cons.mpr ⟨?_, hl⟩
      intro b hb
      rcases List.mem_cons.mp hb with rfl | hb
      · exact hc
      · exact strLe_trans x z b hc (hz b hb)
    · rw [if_neg hc]
      refine List.pairwise_cons.mpr ⟨?_, ih hzs⟩
      intro b hb
      rcases (mem_insertStr x b zs).mp hb with he | hb
      · rw [he]
        exact strLe_total x z (Bool.eq_false_iff.mpr hc)
      · exact hz b hb

theorem pairwise_sortIds (l : List String) :
    (sortIds l).Pairwise (fun a b => strLe a b = true) := by
  induction l with
  | nil => simp [sortIds]
  | cons x xs ih => exact pairwise_insertStr x (sortIds xs) ih

theorem dedupLines_count_mem (ls : List Json) :
    ∀ (seen : List (Option Json × Option Json)) (out : List Json),
      dedupLines ls seen = .ok out → ∀ k ∈ seen, out.countP (keyIs k) = 0 := by
  induction ls with
  | nil =>
    intro seen out h k hk
    simp [dedupLines] at h
    subst h
    rfl
  | cons l ls ih =>
    intro seen out h k hk
    unfold dedupLines at h
    cases hlk : lineKey l with
    | none => rw [hlk] at h; simp at h
    | some kl =>
      rw [hlk] at h
      cases hh : hashableKey kl with
      | false => simp [hh] at h
      | true =>
        simp only [hh, Bool.not_true, Bool.false_eq_true, if_false] at h
        by_cases hmem : kl ∈ seen
        · rw [if_pos hmem] at h
          exact ih seen out h k hk
        · rw [if_neg hmem] at h
          cases hdd : dedupLines ls (kl :: seen) with
          | error e => rw [hdd] at h; simp at h
          | ok rest =>
            rw [hdd] at h
            simp only [Except.ok.injEq] at h
            subst h
            have hne : keyIs k l = false := by
              simp only [keyIs, hlk, decide_eq_false_iff_not, ne_eq, Option.some.injEq]
              intro he
              exact hmem (he ▸ hk)
            simp only [List.countP_cons, hne, if_false, Nat.add_zero, Bool.false_eq_true]
            exact ih (kl :: seen) rest hdd k (List.mem_cons_of_mem kl hk)

theorem dedupLines_count (ls : List Json) :
    ∀ (seen : List (Option Json × Option Json)) (out : List Json),
      dedupLines ls seen = .ok out → ∀ k ∉ seen,
        out.countP (keyIs k) = if ls.any (keyIs k) then 1 else 0 := by
  induction ls with
  | nil =>
    intro seen out h k _
    simp [dedupLines] at h
    subst h
    rfl
  | cons l ls ih =>
    intro seen out h k hk
    unfold dedupLines at h
    cases hlk : lineKey l with
    | none => rw [hlk] at h; simp at h
    | some kl =>
      rw [hlk] at h
      cases hh : hashableKey kl with
      | false => simp [hh] at h
      | true =>
        simp only [hh, Bool.not_true, Bool.false_eq_true, if_false] at h
        by_cases hmem : kl ∈ seen
        · rw [if_pos hmem] at h
          have hne : keyIs k l = false := by
            simp only [keyIs, hlk, decide_eq_false_iff_not, ne_eq, Option.some.injEq]
            intro he
            exact hk (he ▸ hmem)
          rw [List.any_cons]
          simp only [hne, Bool.false_or]
          exact ih seen out h k hk
        · rw [if_neg hmem] at h
          cases hdd : dedupLines ls (kl :: seen) with
          | error e => rw [hdd] at h; simp at h
          | ok rest =>
            rw [hdd] at h
            simp only [Except.ok.injEq] at h
            subst h
            by_cases hkk : k = kl
            · subst hkk
              have hpos : keyIs k l = true := by
                simp [keyIs, hlk]
              simp only [List.countP_cons, hpos, if_true, List.any_cons, Bool.true_or]
              have h0 : rest.countP (keyIs k) = 0 :=
                dedupLines_count_mem ls (k :: seen) rest hdd k (List.mem_cons_self k seen)
              simp [h0]
            · have hne : keyIs k l = false := by
                simp only [keyIs, hlk, decide_eq_false_iff_not, ne_eq, Option.some.injEq]
                intro he
                exact hkk he.symm
              simp only [List.countP_cons, hne, if_false, Nat.add_zero, List.any_cons,
                Bool.false_or, Bool.false_eq_true]
              exact ih (kl :: seen) rest hdd k
                (fun hmem2 => (List.mem_cons.mp hmem2).elim (fun he => hkk he) hk)

theorem dedupLines_find (ls : List Json) :
    ∀ (seen : List (Option Json × Option Json)) (out : List Json),
      dedupLines ls seen = .ok out → ∀ k ∉ seen,
        out.find? (keyIs k) = ls.find? (keyIs k) := by
  induction ls with
  | nil =>
    intro seen out h k _
    simp [dedupLines] at h
    subst h
    rfl
  | cons l ls ih =>
    intro seen out h k hk
    unfold dedupLines at h
    cases hlk : lineKey l with
    | none => rw [hlk] at h; simp at h
    | some kl =>
      rw [hlk] at h
      cases hh : hashableKey kl with
      | false => simp [hh] at h
      | true =>
        simp only [hh, Bool.not_true, Bool.false_eq_true, if_false] at h
        by_cases hmem : kl ∈ seen
        · rw [if_pos hmem] at h
          have hne : keyIs k l = false := by
            simp only [keyIs, hlk, decide_eq_false_iff_not, ne_eq, Option.some.injEq]
            intro he
            exact hk (he ▸ hmem)
          rw [List.find?_cons_of_neg _ (by simp [hne])]
          exact ih seen out h k hk
        · rw [if_neg hmem] at h
          cases hdd : dedupLines ls (kl :: seen) with
          | error e => rw [hdd] at h; simp at h
          | ok rest =>
            rw [hdd] at h
            simp only [Except.ok.injEq] at h
            subst h
            by_cases hkk : k = kl
            · subst hkk
              have hpos : keyIs k l = true := by
                simp [keyIs, hlk]
              rw [List.find?_cons_of_pos _ hpos, List.find?_cons_of_pos _ hpos]
            · have hne : keyIs k l = false := by
                simp only [keyIs, hlk, decide_eq_false_iff_not, ne_eq, Option.some.injEq]
                intro he
                exact hkk he.symm
              rw [List.find?_cons_of_neg _ (by simp [hne]),
                List.find?_cons_of_neg _ (by simp [hne])]
              exact ih (kl :: seen) rest hdd k
                (fun hmem2 => (List.mem_cons.mp hmem2).elim (fun he => hkk he) hk)

theorem station_ids_ok (net : Net) (ids : List String) (tr : List Request)
    (h : station_ids_async net = (.ok ids, tr)) : ∃ ss, ids = sortIds ss := by
  unfold station_ids_async apiCall at h
  cases hn : net stationIdsRequest with
  | error m => rw [hn] at h; simp at h
  | ok j =>
    rw [hn] at h
    cases j with
    | arr xs =>
      cases ha : allStrings xs with
      | none => simp [ha] at h
      | some ss =>
        simp only [ha, Prod.mk.injEq, Except.ok.injEq] at h
        exact ⟨ss, h.1.symm⟩
    | null => simp at h
    | bool b => simp at h
    | int n => simp at h
    | float q => simp at h
    | str t => simp at h
    | obj kvs => simp at h

/-- C3: in the aggregate lines operation, when the station-id enumeration
succeeded and the aggregate returned a result, the enumeration order is
ascending (sorted by code points, as Python `sorted` produces), and for
every `(label, transportType)` key the returned list holds exactly one
entry with that key when the key occurs in the merged per-station traversal
`aggLines` (station ids in sorted order, each station's list in its result
order) and none otherwise, and the entry found for a key is the first
occurrence of that key in that traversal. -/
theorem mvg_c3 (net : Net) (ids : List String) (tr0 tr : List Request) (out : List Json)
    (hids : station_ids_async net = (.ok ids, tr0))
    (hout : lines_async net none = (.ok out, tr)) :
    ids.Pairwise (fun a b => strLe a b = true) ∧
    ∀ k, out.countP (keyIs k) = (if (aggLines net ids).any (keyIs k) then 1 else 0) ∧
         out.find? (keyIs k) = (aggLines net ids).find? (keyIs k) := by
  constructor
  · obtain ⟨ss, hss⟩ := station_ids_ok net ids tr0 hids
    rw [hss]
    exact pairwise_sortIds ss
  · intro k
    unfold lines_async at hout
    rw [hids] at hout
    simp only [pyTruthy, Bool.false_eq_true, if_false] at hout
    cases hdd : dedupLines (aggLines net ids) [] with
    | error e => rw [hdd] at hout; simp at hout
    | ok res =>
      rw [hdd] at hout
      simp only [Prod.mk.injEq, Except.ok.injEq] at hout
      rw [← hout.1]
      exact ⟨dedupLines_count (aggLines net ids) [] res hdd k (by simp),
        dedupLines_find (aggLines net ids) [] res hdd k (by simp)⟩

theorem mvg_c3_witness :
    (["de:09:1", "de:09:2"] : List String).Pairwise (fun a b => strLe a b = true) ∧
    ([Json.obj [("label", .str "U3"), ("transportType", .str "UBAHN"), ("n", .int 1)],
      Json.obj [("label", .str "19"), ("transportType", .str "TRAM")]].countP
        (keyIs (some (.str "U3"), some (.str "UBAHN"))) =
      (if (aggLines linesNetA ["de:09:1", "de:09:2"]).any
          (keyIs (some (.str "U3"), some (.str "UBAHN"))) then 1 else 0)) ∧
    ([Json.obj [("label", .str "U3"), ("transportType", .str "UBAHN"), ("n", .int 1)],
      Json.obj [("label", .str "19"), ("transportType", .str "TRAM")]].find?
        (keyIs (some (.str "U3"), some (.str "UBAHN"))) =
      (aggLines linesNetA ["de:09:1", "de:09:2"]).find?
        (keyIs (some (.str "U3"), some (.str "UBAHN")))) := by
  have h := mvg_c3 linesNetA ["de:09:1", "de:09:2"] [stationIdsRequest]
    [stationIdsRequest, lineStationRequest "de:09:1", lineStationRequest "de:09:2"]
    [Json.obj [("label", .str "U3"), ("transportType", .str "UBAHN"), ("n", .int 1)],
     Json.obj [("label", .str "19"), ("transportType", .str "TRAM")]]
    (by rfl) (by rfl)
  exact ⟨h.1, (h.2 (some (.str "U3"), some (.str "UBAHN"))).1,
    (h.2 (some (.str "U3"), some (.str "UBAHN"))).2⟩

/-- C4: in the aggregate lines operation, a per-station fetch that does not
produce a list (a transport error, or any non-list body) is equivalent to
that station contributing an empty list: replacing the failing response by
an empty success changes nothing — neither the returned value nor the
request trace — so the failure never fails or aborts the whole call, and
every other station's lines are still merged and returned. -/
theorem mvg_c4 (net : Net) (sid : String)
    (hfail : ∀ xs, net (lineStationRequest sid) ≠ .ok (.arr xs)) :
    lines_async (overrideNet net (lineStationRequest sid) (.ok (.arr []))) none =
      lines_async net none := by
  have hne : stationIdsRequest ≠ lineStationRequest sid := by
    simp [stationIdsRequest, lineStationRequest]
  have h1 : overrideNet net (lineStationRequest sid) (.ok (.arr [])) stationIdsRequest =
      net stationIdsRequest := by
    simp [overrideNet, hne]
  have h2 : station_ids_async (overrideNet net (lineStationRequest sid) (.ok (.arr []))) =
      station_ids_async net := by
    unfold station_ids_async apiCall
    rw [h1]
  have h3 : ∀ s, fetchLines (overrideNet net (lineStationRequest sid) (.ok (.arr []))) s =
      fetchLines net s := by
    intro s
    by_cases hs : lineStationRequest s = lineStationRequest sid
    · have hss : s = sid := by
        simpa [lineStationRequest] using hs
      subst hss
      unfold fetchLines overrideNet
      rw [if_pos rfl]
      cases hn : net (lineStationRequest s) with
      | error m => rfl
      | ok j =>
        cases j with
        | arr xs => exact absurd hn (hfail xs)
        | null => rfl
        | bool b => rfl
        | int n => rfl
        | float q => rfl
        | str t => rfl
        | obj kvs => rfl
    · unfold fetchLines overrideNet
      rw [if_neg hs]
  have h4 : fetchLines (overrideNet net (lineStationRequest sid) (.ok (.arr []))) =
      fetchLines net := funext h3
  unfold lines_async aggLines
  simp only [pyTruthy, Bool.false_eq_true, if_false]
  rw [h2, h4]

theorem mvg_c4_witness :
    lines_async (overrideNet linesNetB (lineStationRequest "de:09:2") (.ok (.arr []))) none =
      lines_async linesNetB none := by
  refine mvg_c4 linesNetB "de:09:2" ?_
  intro xs h
  exact absurd (show Except.error "boom" = Except.ok (Json.arr xs) from h) (by simp)
